import Mathlib

/-!
A shallow embedding of the async Event Hubs producer send pipeline
(`azure/eventhub/aio/_producer_async.py`) and the partition checkpoint
context (`azure/eventhub/aio/_eventprocessor/partition_context.py`),
with theorems settling the specification claims about them.

Python values are embedded as follows: optional values become `Option`,
floating-point times become `Rat` (only comparisons, subtraction and a
unit conversion occur), exceptions become an explicit `EHError` sum
raised through result records, and the external transport link becomes
an explicit `LinkState` mutated by the embedded operations, with the
acknowledgement behaviour of a flush supplied as a parameter
(`FlushResult`).
-/

/-- Errors raised by the embedded code.  `operationTimeout` embeds
`OperationTimeoutError`, `valueError` embeds Python's `ValueError`,
`clientClosed` embeds the error raised by the mixin's closed-check, and
the remaining constructors stand for the transport-level exceptions that
can be recorded as a send condition or observed as a last exception. -/
inductive EHError where
  | operationTimeout (msg : String)
  | valueError (msg : String)
  | clientClosed
  | connectionLost
  | amqpCondition (name : String)
deriving DecidableEq, Repr

/-- Is the error an operation-timeout error? -/
def EHError.isOperationTimeout : EHError → Bool
  | .operationTimeout _ => true
  | _ => false

/-- `uamqp.constants.MessageSendResult`, as used by the producer: the
code only distinguishes `Ok`, `Timeout` and the remaining (error)
outcomes. -/
inductive MessageSendResult where
  | Ok
  | Timeout
  | Error
deriving DecidableEq, Repr

/-- An AMQP message as handled by the pipeline: an opaque payload used
as identity, plus the partition-key annotation that
`set_message_partition_key` writes. -/
structure Message where
  payload : String
  partition_key : Option String
deriving DecidableEq, Repr

/-- `azure.eventhub.EventData`, restricted to the fields this core
reads: the wrapped AMQP message, the service-assigned offset and
sequence number, and the last-enqueued-event annotations that the
diagnostics projection reads. -/
structure EventData where
  message : Message
  offset : Option String
  sequence_number : Option Int
  last_enqueued_sequence_number : Option Int
  last_enqueued_offset : Option String
  last_enqueued_time : Option Int
  retrieval_time : Option Int
deriving DecidableEq, Repr

/-- `azure.eventhub.EventDataBatch`, restricted to what the producer
reads: the bound partition key (`_partition_key`, possibly `None`) and
the single batch message submitted to the link. -/
structure EventDataBatch where
  _partition_key : Option String
  message : Message
deriving DecidableEq, Repr

/-! ## Partition context and checkpointing -/

/-- The checkpoint record built by `PartitionContext.update_checkpoint`
(the Python dict literal at partition_context.py lines 70-77), with the
code's key names as fields. -/
structure Checkpoint where
  fully_qualified_namespace : String
  eventhub_name : String
  consumer_group : String
  partition_id : String
  offset : Option String
  sequence_number : Option Int
deriving DecidableEq, Repr

/-- A diagnostic log record.  `checkpointWithoutStore` embeds the
warning logged by `update_checkpoint` when no checkpoint store is
configured, carrying the four identity values passed as logging
arguments. -/
inductive LogRecord where
  | checkpointWithoutStore (fully_qualified_namespace eventhub_name
      consumer_group partition_id : String)
deriving DecidableEq, Repr

/-- `azure.eventhub.aio._eventprocessor.partition_context.PartitionContext`:
the four identity attributes, the mutable last-received-event reference,
and the optional checkpoint store (embedded as a presence flag; the
store itself is external). -/
structure PartitionContext where
  fully_qualified_namespace : String
  eventhub_name : String
  consumer_group : String
  partition_id : String
  _last_received_event : Option EventData
  _checkpoint_store : Bool
deriving DecidableEq, Repr

/-- `PartitionContext.__init__`: stores the four identity arguments and
the store reference, and initialises `_last_received_event` to `None`. -/
def PartitionContext.init (fully_qualified_namespace eventhub_name
    consumer_group partition_id : String) (checkpoint_store : Bool) :
    PartitionContext :=
  { fully_qualified_namespace := fully_qualified_namespace
    eventhub_name := eventhub_name
    consumer_group := consumer_group
    partition_id := partition_id
    _last_received_event := none
    _checkpoint_store := checkpoint_store }

/-- The dictionary returned by the `last_enqueued_event_properties`
projection. -/
structure LastEnqueuedEventProperties where
  sequence_number : Option Int
  offset : Option String
  enqueued_time : Option Int
  retrieval_time : Option Int
deriving DecidableEq, Repr

/-- Modelled from the spec: `get_last_enqueued_event_properties` (in
`azure/eventhub/_utils.py`, not under src/) derives
`{sequence_number, offset, enqueued_time, retrieval_time}` from the
last received event's annotations. -/
def get_last_enqueued_event_properties (event : EventData) :
    LastEnqueuedEventProperties :=
  { sequence_number := event.last_enqueued_sequence_number
    offset := event.last_enqueued_offset
    enqueued_time := event.last_enqueued_time
    retrieval_time := event.retrieval_time }

/-- The `last_enqueued_event_properties` property: a pure projection
returning the derived dictionary if an event has been received, and
`None` otherwise.  It mutates nothing. -/
def PartitionContext.last_enqueued_event_properties
    (ctx : PartitionContext) : Option LastEnqueuedEventProperties :=
  match ctx._last_received_event with
  | some e => some (get_last_enqueued_event_properties e)
  | none => none

/-- Result of `update_checkpoint`: the context after the call (the
method assigns no attributes), the sequence of store upsert calls made,
the log records emitted, and the error the call raises, if any. -/
structure UpdateCheckpointResult where
  ctx : PartitionContext
  storeCalls : List Checkpoint
  logs : List LogRecord
  raised : Option EHError
deriving Repr

/-- `PartitionContext.update_checkpoint(event)`: if a checkpoint store
is configured, build the checkpoint record from the context identity and
the event's offset/sequence number and await the store's upsert (whose
external outcome is the parameter `storeRaises`); otherwise log a
warning and do nothing. -/
def PartitionContext.update_checkpoint (ctx : PartitionContext)
    (event : EventData) (storeRaises : Option EHError) :
    UpdateCheckpointResult :=
  if ctx._checkpoint_store then
    let checkpoint : Checkpoint :=
      { fully_qualified_namespace := ctx.fully_qualified_namespace
        eventhub_name := ctx.eventhub_name
        consumer_group := ctx.consumer_group
        partition_id := ctx.partition_id
        offset := event.offset
        sequence_number := event.sequence_number }
    { ctx := ctx, storeCalls := [checkpoint], logs := [],
      raised := storeRaises }
  else
    { ctx := ctx, storeCalls := [],
      logs := [.checkpointWithoutStore ctx.fully_qualified_namespace
        ctx.eventhub_name ctx.consumer_group ctx.partition_id],
      raised := none }

/-! ## The producer and the transport link -/

/-- The state of the transport link (`uamqp.SendClientAsync`) that the
producer manipulates: the messages queued since the last flush, the
messages left unacknowledged by the last flush (`pending_messages`), and
the link's per-message timeout in milliseconds (`_msg_timeout`). -/
structure LinkState where
  queued : List Message
  pending : List Message
  msg_timeout : Rat
deriving DecidableEq, Repr

/-- `SendClientAsync.queue_message(*msgs)`: appends the messages to the
link's queue. -/
def queue_message (l : LinkState) (msgs : List Message) : LinkState :=
  { l with queued := l.queued ++ msgs }

/-- The external behaviour of one `wait_async` flush: which queued
messages the service acknowledges, and the `(outcome, condition)` pair
the transport delivers to the registered `on_send_complete` callback
(`EventHubProducer._on_outcome`). -/
structure FlushResult where
  acked : Message → Bool
  outcome : MessageSendResult
  condition : Option EHError

/-- `SendClientAsync.wait_async()`: suspends until every queued message
is acknowledged or left pending; afterwards `pending_messages` holds
exactly the unacknowledged ones, in queue order. -/
def wait_async (l : LinkState) (fr : FlushResult) : LinkState :=
  { l with queued := [],
           pending := l.queued.filter (fun m => !(fr.acked m)) }

/-- `EventHubProducer` state: the run/closed flags, the unsent-events
list, the last recorded outcome and condition
(`_outcome`/`_condition`, written by `_on_outcome`), the nullable link
handle, and the configured send timeout in seconds. -/
structure ProducerState where
  running : Bool
  closed : Bool
  unsent_events : List Message
  outcome : Option MessageSendResult
  condition : Option EHError
  handler : Option LinkState
  timeout : Rat
deriving Repr

/-- Modelled from the spec: the Connection Lifecycle Manager's
`openIfNeeded` (`ConsumerProducerMixin._open`, in
`_client_base_async.py`, not under src/) — a no-op when a link exists
and the producer is running, otherwise it constructs a fresh link with
the default message timeout derived from the send timeout and sets
`running = true`.  Returns the state together with the usable link. -/
def openIfNeeded (p : ProducerState) : ProducerState × LinkState :=
  match p.handler, p.running with
  | some l, true => (p, l)
  | _, _ =>
    let l : LinkState :=
      { queued := [], pending := [], msg_timeout := p.timeout * 1000 }
    ({ p with running := true, handler := some l }, l)

/-- `EventHubProducer._set_msg_timeout(timeout_time, last_exception)`:
returns without touching the link when `timeout_time` is falsy
(`None` or `0`); otherwise computes `remaining = timeout_time - now`,
raises the last exception (or an `OperationTimeoutError` if none) when
the budget is exhausted, and otherwise returns the new link message
timeout `remaining * 1000`.  `handler_msg_timeout` is the link's
current `_msg_timeout`, returned unchanged in the falsy case. -/
def set_msg_timeout (handler_msg_timeout : Rat)
    (timeout_time : Option Rat) (now : Rat)
    (last_exception : Option EHError) : Except EHError Rat :=
  match timeout_time with
  | none => .ok handler_msg_timeout
  | some tt =>
    if tt = 0 then .ok handler_msg_timeout
    else
      let remaining := tt - now
      if remaining ≤ 0 then
        .error (last_exception.getD
          (.operationTimeout "Send operation timed out"))
      else .ok (remaining * 1000)

/-- The transport interactions one attempt performs, in order. -/
inductive TransportEvent where
  | openLink
  | queueMessage (msgs : List Message)
  | waitFlush
deriving DecidableEq, Repr

/-- Result of one send attempt (or of a whole `send` call): the
producer state afterwards, the error raised if any, and the transport
interactions performed. -/
structure AttemptResult where
  state : ProducerState
  raised : Option EHError
  events : List TransportEvent
deriving Repr

/-- `EventHubProducer._send_event_data(timeout_time, last_exception)`,
one retry attempt: no-op when the unsent list is empty; otherwise open
the link, set the message timeout (possibly raising), queue the unsent
events, await the flush, record `pending_messages` as the new unsent
list and the callback-delivered outcome/condition, then — when the
outcome is not `Ok` — overwrite the condition with an
`OperationTimeoutError` on a `Timeout` outcome and raise the condition
when one is present.  The flush behaviour is the parameter `fr` and
`now` is the clock reading inside `_set_msg_timeout`. -/
def send_event_data (p : ProducerState) (timeout_time : Option Rat)
    (now : Rat) (last_exception : Option EHError) (fr : FlushResult) :
    AttemptResult :=
  if p.unsent_events.isEmpty then
    { state := p, raised := none, events := [] }
  else
    let p1 := (openIfNeeded p).1
    let link := (openIfNeeded p).2
    match set_msg_timeout link.msg_timeout timeout_time now
        last_exception with
    | .error e => { state := p1, raised := some e, events := [.openLink] }
    | .ok mt =>
      let link1 := queue_message { link with msg_timeout := mt }
        p1.unsent_events
      let link2 := wait_async link1 fr
      let events := [.openLink, .queueMessage p1.unsent_events,
        .waitFlush]
      let p2 := { p1 with
        handler := some link2
        unsent_events := link2.pending
        outcome := some fr.outcome
        condition := fr.condition }
      if fr.outcome ≠ .Ok then
        let timeoutErr : EHError :=
          .operationTimeout "Send operation timed out"
        let p3 := if fr.outcome = .Timeout then
            { p2 with condition := some timeoutErr }
          else p2
        match p3.condition with
        | some c => { state := p3, raised := some c, events := events }
        | none => { state := p3, raised := none, events := events }
      else { state := p2, raised := none, events := events }

/-! ## Wrapping and the public send operation -/

/-- Python truthiness of the optional partition-key string: truthy iff
present and non-empty. -/
def truthy : Option String → Bool
  | none => false
  | some s => !(s == "")

/-- `set_message_partition_key` (in `azure/eventhub/_utils.py`):
stamps the partition key into the message's annotations. -/
def set_message_partition_key (m : Message) (pk : String) : Message :=
  { m with partition_key := some pk }

/-- Modelled from the spec: `EventDataBatch._from_batch` (in
`azure/eventhub/_common.py`, not under src/) converts a sequence of
events into one batch bound to the given partition key, whose single
batch message carries the events' payloads and the key. -/
def EventDataBatch_from_batch (es : List EventData)
    (pk : Option String) : EventDataBatch :=
  let m : Message :=
    { payload :=
        String.intercalate ";" (es.map (fun e => e.message.payload))
      partition_key := pk }
  { _partition_key := pk, message := m }

/-- The argument shapes `send` accepts: one event, a prepared batch, or
an iterable of events. -/
inductive SendInput where
  | single (e : EventData)
  | batch (b : EventDataBatch)
  | seq (es : List EventData)
deriving Repr

/-- The wrapper returned by `_wrap_eventdata`. -/
inductive Wrapped where
  | event (e : EventData)
  | batch (b : EventDataBatch)
deriving DecidableEq, Repr

/-- The wrapper's `.message`, the thing stored as the unsent event. -/
def Wrapped.message : Wrapped → Message
  | .event e => e.message
  | .batch b => b.message

/-- `EventHubProducer._wrap_eventdata(event_data, span, partition_key)`
with no active tracing span: a single event gets the partition key
stamped when the key is truthy; a prepared `EventDataBatch` is rejected
with a `ValueError` when a truthy key differs from the batch's bound
`_partition_key`, and passed through unchanged otherwise; any other
iterable gets the key stamped on each event and is converted into one
batch bound to the key. -/
def wrap_eventdata (input : SendInput) (partition_key : Option String) :
    Except EHError Wrapped :=
  match input with
  | .single e =>
    if truthy partition_key then
      .ok (.event { e with message :=
        set_message_partition_key e.message (partition_key.getD "") })
    else .ok (.event e)
  | .batch b =>
    if truthy partition_key ∧ partition_key ≠ b._partition_key then
      .error (.valueError
        "The partition_key does not match the one of the EventDataBatch")
    else .ok (.batch b)
  | .seq es =>
    let es1 := if truthy partition_key then
        es.map (fun e => { e with message :=
          set_message_partition_key e.message (partition_key.getD "") })
      else es
    .ok (.batch (EventDataBatch_from_batch es1 partition_key))

/-- `EventHubProducer.send(event_data, partition_key, timeout)` up to
its delegation of the retryable transmission: under the producer's
exclusive lock it checks the closed flag (modelled from the spec:
`_check_closed` lives in `_client_base_async.py`, not under src/, and
rejects sends on a closed producer), wraps the input — raising
synchronously on a partition-key conflict, before any transport
interaction — stores the wrapper's message as the sole unsent event,
and hands the state to the retry phase `rest`
(`_send_event_data_with_retry`). -/
def send (p : ProducerState) (input : SendInput)
    (partition_key : Option String)
    (rest : ProducerState → AttemptResult) : AttemptResult :=
  if p.closed then
    { state := p, raised := some .clientClosed, events := [] }
  else
    match wrap_eventdata input partition_key with
    | .error e => { state := p, raised := some e, events := [] }
    | .ok w => rest { p with unsent_events := [w.message] }

/-- Modelled from the spec: `EventHubProducer.close` delegates, under
the lock, to the Connection Lifecycle Manager's idempotent close
(`ConsumerProducerMixin.close`, in `_client_base_async.py`, not under
src/): a no-op when already closed, otherwise it tears down the link
and sets `closed = true`, `running = false`.  The second component is
the error the call raises — always `none`. -/
def producer_close (p : ProducerState) : ProducerState × Option EHError :=
  if p.closed then (p, none)
  else ({ p with closed := true, running := false, handler := none },
    none)

/-! ## Serialization of concurrent sends

`send` runs its whole wrap-transmit-wait body inside
`async with self._lock` (an `asyncio.Lock` created per producer).  The
lock-relevant shape of one `send` call is: acquire the lock, begin the
transport-visible transmission (queue + flush wait), observe the
terminal outcome (end of transmission), release the lock.  Two
concurrent calls on one producer are two such programs interleaved by
the event loop; the lock semantics forbid an acquire while the lock is
held.  The model below checks every interleaving of every pair of
prefixes of the two programs. -/

/-- One atomic step of a `send` call, tagged by which of the two tasks
(`false`/`true`) performs it. -/
inductive SendAction where
  | acquire (t : Bool)
  | beginTx (t : Bool)
  | endTx (t : Bool)
  | release (t : Bool)
deriving DecidableEq, Repr

/-- The lock-relevant program of one `send` call: acquire the
producer's lock, begin transmission, observe the terminal outcome, and
release the lock on exit of the `async with` block. -/
def sendProgram (t : Bool) : List SendAction :=
  [.acquire t, .beginTx t, .endTx t, .release t]

/-- `asyncio.Lock` semantics: the lock state is its holder (or free);
an acquire proceeds only when the lock is free, a release only by the
holder; the transmission steps themselves do not touch the lock.
Returns `none` when the step cannot occur. -/
def lockStep : Option Bool → SendAction → Option (Option Bool)
  | none, .acquire t => some (some t)
  | some _, .acquire _ => none
  | some h, .release t => if h = t then some none else none
  | none, .release _ => none
  | l, .beginTx _ => some l
  | l, .endTx _ => some l

/-- A trace is schedulable from lock state `l` iff every step obeys the
lock semantics. -/
def validFrom (l : Option Bool) : List SendAction → Bool
  | [] => true
  | a :: rest =>
    match lockStep l a with
    | some l2 => validFrom l2 rest
    | none => false

/-- Transmission windows overlap iff some task begins its transmission
while another window is still active.  `active` is the list of tasks
currently inside their transmission window. -/
def overlapFrom (active : List Bool) : List SendAction → Bool
  | [] => false
  | .beginTx t :: rest =>
    if active.isEmpty then overlapFrom (t :: active) rest else true
  | .endTx t :: rest => overlapFrom (active.erase t) rest
  | .acquire _ :: rest => overlapFrom active rest
  | .release _ :: rest => overlapFrom active rest

/-- All interleavings of two sequences of steps, by structural
recursion on a fuel bound (sufficient whenever
`fuel ≥ xs.length + ys.length`). -/
def interleavingsFuel : Nat → List SendAction → List SendAction →
    List (List SendAction)
  | _, [], ys => [ys]
  | _, xs, [] => [xs]
  | 0, _, _ => []
  | fuel + 1, x :: xs, y :: ys =>
    (interleavingsFuel fuel xs (y :: ys)).map (fun tr => x :: tr) ++
    (interleavingsFuel fuel (x :: xs) ys).map (fun tr => y :: tr)

/-- All interleavings of two sequences of steps. -/
def interleavings (xs ys : List SendAction) : List (List SendAction) :=
  interleavingsFuel (xs.length + ys.length) xs ys

/-! ## Sample values used by witnesses and counterexamples -/

/-- A sample message. -/
def msgA : Message := { payload := "a", partition_key := none }

/-- A second sample message. -/
def msgB : Message := { payload := "b", partition_key := none }

/-- A sample event carrying offset "100" and sequence number 42. -/
def sampleEvent : EventData :=
  { message := msgA, offset := some "100", sequence_number := some 42,
    last_enqueued_sequence_number := none,
    last_enqueued_offset := none, last_enqueued_time := none,
    retrieval_time := none }

/-- A fresh producer holding one unsent message. -/
def sampleProducer : ProducerState :=
  { running := false, closed := false, unsent_events := [msgA],
    outcome := none, condition := none, handler := none, timeout := 60 }

/-- A flush in which nothing is acknowledged and the transport reports
a non-Ok, non-Timeout outcome with no recorded condition. -/
def errorFlushNoCondition : FlushResult :=
  { acked := fun _ => false, outcome := .Error, condition := none }

/-- A flush in which everything is acknowledged with outcome `Ok`. -/
def okFlush : FlushResult :=
  { acked := fun _ => true, outcome := .Ok, condition := none }

/-! ## Claims about the partition context -/

/-- C3: on a `PartitionContext` with a configured checkpoint store and
identity `(ns="ns1", hub="hub1", cg="$Default", partition="0")`,
`update_checkpoint(event)` with `event.offset = "100"` and
`event.sequence_number = 42` makes exactly one store upsert call, whose
record is exactly the checkpoint
`{fully_qualified_namespace: "ns1", eventhub_name: "hub1",
consumer_group: "$Default", partition_id: "0", offset: "100",
sequence_number: 42}` (the claim's `namespace` field is the code's
`fully_qualified_namespace` key). -/
theorem update_checkpoint_round_trip (ctx : PartitionContext)
    (event : EventData) (storeRaises : Option EHError)
    (hstore : ctx._checkpoint_store = true)
    (hns : ctx.fully_qualified_namespace = "ns1")
    (hhub : ctx.eventhub_name = "hub1")
    (hcg : ctx.consumer_group = "$Default")
    (hpid : ctx.partition_id = "0")
    (hoff : event.offset = some "100")
    (hseq : event.sequence_number = some 42) :
    (ctx.update_checkpoint event storeRaises).storeCalls =
      [{ fully_qualified_namespace := "ns1", eventhub_name := "hub1",
         consumer_group := "$Default", partition_id := "0",
         offset := some "100", sequence_number := some 42 }] := by
  simp [PartitionContext.update_checkpoint, hstore, hns, hhub, hcg,
    hpid, hoff, hseq]

/-- Witness for C3: the round-trip theorem applied to a concrete
context and event. -/
theorem update_checkpoint_round_trip_witness :
    ((PartitionContext.init "ns1" "hub1" "$Default" "0"
        true).update_checkpoint sampleEvent none).storeCalls =
      [{ fully_qualified_namespace := "ns1", eventhub_name := "hub1",
         consumer_group := "$Default", partition_id := "0",
         offset := some "100", sequence_number := some 42 }] :=
  update_checkpoint_round_trip
    (PartitionContext.init "ns1" "hub1" "$Default" "0" true)
    sampleEvent none rfl rfl rfl rfl rfl rfl rfl

/-- C6: `update_checkpoint` on a `PartitionContext` constructed without
a checkpoint store returns normally (raises nothing), performs no store
write, and logs exactly one diagnostic warning. -/
theorem update_checkpoint_no_store (ctx : PartitionContext)
    (event : EventData) (storeRaises : Option EHError)
    (h : ctx._checkpoint_store = false) :
    (ctx.update_checkpoint event storeRaises).raised = none ∧
    (ctx.update_checkpoint event storeRaises).storeCalls = [] ∧
    (ctx.update_checkpoint event storeRaises).logs =
      [.checkpointWithoutStore ctx.fully_qualified_namespace
        ctx.eventhub_name ctx.consumer_group ctx.partition_id] := by
  simp [PartitionContext.update_checkpoint, h]

/-- Witness for C6: the no-op theorem applied to a concrete context
constructed without a store. -/
theorem update_checkpoint_no_store_witness :
    ((PartitionContext.init "ns1" "hub1" "$Default" "0"
        false).update_checkpoint sampleEvent none).raised = none ∧
    ((PartitionContext.init "ns1" "hub1" "$Default" "0"
        false).update_checkpoint sampleEvent none).storeCalls = [] ∧
    ((PartitionContext.init "ns1" "hub1" "$Default" "0"
        false).update_checkpoint sampleEvent none).logs =
      [.checkpointWithoutStore "ns1" "hub1" "$Default" "0"] :=
  update_checkpoint_no_store
    (PartitionContext.init "ns1" "hub1" "$Default" "0" false)
    sampleEvent none rfl

/-- C8: the four identity fields of a `PartitionContext` never change:
the constructor stores its arguments verbatim, and `update_checkpoint`
returns the context unchanged on all four identity fields (indeed it
assigns no attribute at all; `last_enqueued_event_properties` is a pure
projection that returns no modified context). -/
theorem partition_context_identity_immutable (fqn hub cg pid : String)
    (store : Bool) (ctx : PartitionContext) (event : EventData)
    (storeRaises : Option EHError) :
    ((PartitionContext.init fqn hub cg pid
        store).fully_qualified_namespace = fqn ∧
      (PartitionContext.init fqn hub cg pid store).eventhub_name = hub ∧
      (PartitionContext.init fqn hub cg pid store).consumer_group = cg ∧
      (PartitionContext.init fqn hub cg pid store).partition_id = pid) ∧
    ((ctx.update_checkpoint event
        storeRaises).ctx.fully_qualified_namespace =
        ctx.fully_qualified_namespace ∧
      (ctx.update_checkpoint event storeRaises).ctx.eventhub_name =
        ctx.eventhub_name ∧
      (ctx.update_checkpoint event storeRaises).ctx.consumer_group =
        ctx.consumer_group ∧
      (ctx.update_checkpoint event storeRaises).ctx.partition_id =
        ctx.partition_id) := by
  refine ⟨⟨rfl, rfl, rfl, rfl⟩, ?_⟩
  unfold PartitionContext.update_checkpoint
  split <;> exact ⟨rfl, rfl, rfl, rfl⟩

/-! ## Claims about closing the producer -/

/-- C7: closing a producer twice has the same observable effect on the
producer's state (closed and running flags, link handle) as closing it
once, and the second call raises no error. -/
theorem producer_close_idempotent (p : ProducerState) :
    producer_close (producer_close p).1 = ((producer_close p).1, none) := by
  unfold producer_close
  by_cases h : p.closed <;> simp [h]

/-! ## Claims about partition-key validation in send -/

/-- The `ValueError` raised on a partition-key conflict. -/
def partitionKeyMismatchError : EHError :=
  .valueError "The partition_key does not match the one of the EventDataBatch"

/-- C1: sending an `EventDataBatch` already bound to partition key `A`
with `partition_key = B`, `B` non-empty and `B ≠ A`, fails with the
validation `ValueError` raised synchronously inside the wrap step —
before any transport interaction (no link open, no enqueue, no wait:
the transport-event list is empty and the producer state is untouched),
whatever the retry phase `rest` would do. -/
theorem send_partition_key_conflict (p : ProducerState)
    (b : EventDataBatch) (A B : String)
    (rest : ProducerState → AttemptResult)
    (hclosed : p.closed = false)
    (hbound : b._partition_key = some A)
    (hB : B ≠ "") (hne : B ≠ A) :
    send p (.batch b) (some B) rest =
      { state := p, raised := some partitionKeyMismatchError,
        events := [] } := by
  have ht : truthy (some B) = true := by simp [truthy, hB]
  simp [send, hclosed, wrap_eventdata, hbound, ht, hne,
    partitionKeyMismatchError]

/-- Witness for C1: the conflict theorem applied to a concrete bound
batch and a different concrete key. -/
theorem send_partition_key_conflict_witness :
    send sampleProducer
      (.batch { _partition_key := some "A", message := msgA })
      (some "B") (fun s => { state := s, raised := none, events := [] }) =
      { state := sampleProducer, raised := some partitionKeyMismatchError,
        events := [] } :=
  send_partition_key_conflict sampleProducer
    { _partition_key := some "A", message := msgA } "A" "B"
    (fun s => { state := s, raised := none, events := [] })
    rfl rfl (by decide) (by decide)

/-- C10: the conflict check fires whenever a truthy supplied key
differs from the batch's bound key — in particular an *unbound* batch
(`_partition_key = None`) sent with any non-empty `partition_key` also
raises the validation `ValueError` with no transport interaction; and
conversely a supplied empty-string key is falsy, is ignored, and never
conflicts with any batch. -/
theorem send_unbound_batch_conflict (p : ProducerState)
    (b b2 : EventDataBatch) (B : String)
    (rest : ProducerState → AttemptResult)
    (hclosed : p.closed = false)
    (hunbound : b._partition_key = none)
    (hB : B ≠ "") :
    (send p (.batch b) (some B) rest =
      { state := p, raised := some partitionKeyMismatchError,
        events := [] }) ∧
    (send p (.batch b2) (some "") rest =
      rest { p with unsent_events := [b2.message] }) := by
  have ht : truthy (some B) = true := by simp [truthy, hB]
  constructor
  · simp [send, hclosed, wrap_eventdata, hunbound, ht,
      partitionKeyMismatchError]
  · simp [send, hclosed, wrap_eventdata, truthy, Wrapped.message]

/-- Witness for C10: the unbound-batch theorem applied to a concrete
unbound batch and the concrete key "B". -/
theorem send_unbound_batch_conflict_witness :
    (send sampleProducer
      (.batch { _partition_key := none, message := msgA })
      (some "B") (fun s => { state := s, raised := none, events := [] }) =
      { state := sampleProducer, raised := some partitionKeyMismatchError,
        events := [] }) ∧
    (send sampleProducer
      (.batch { _partition_key := none, message := msgB })
      (some "") (fun s => { state := s, raised := none, events := [] }) =
      { state := { sampleProducer with unsent_events := [msgB] },
        raised := none, events := [] }) :=
  send_unbound_batch_conflict sampleProducer
    { _partition_key := none, message := msgA }
    { _partition_key := none, message := msgB } "B"
    (fun s => { state := s, raised := none, events := [] })
    rfl rfl (by decide)

/-! ## Claims about outcome handling after the flush wait -/

/-- C2 counterexample: a flush that reports a non-Ok, non-Timeout
outcome with no recorded condition makes `_send_event_data` fall
through both raise branches and complete as success — `raised = none`
although the recorded outcome is `Error` — contradicting the claim
that any non-Ok outcome without a condition raises a generic send
failure and that the attempt never completes as success with a non-Ok
outcome. -/
theorem send_outcome_silent_success :
    (send_event_data sampleProducer none 0 none
        errorFlushNoCondition).raised = none ∧
    (send_event_data sampleProducer none 0 none
        errorFlushNoCondition).state.outcome = some .Error := by
  constructor <;> rfl

/-- C2 (amended): after the flush wait, a `Timeout` outcome overwrites
the recorded condition with an `OperationTimeoutError` and raises it;
any other non-Ok outcome raises the recorded condition if one is
present — but when no condition was recorded, the attempt returns
without raising (it completes as if successful).  `hok` states that the
deadline check passed and `hne` that there was something to send. -/
theorem send_outcome_mapping (p : ProducerState) (tt : Option Rat)
    (now : Rat) (le : Option EHError) (fr : FlushResult) (mt : Rat)
    (hne : p.unsent_events ≠ [])
    (hok : set_msg_timeout ((openIfNeeded p).2).msg_timeout tt now le =
      .ok mt) :
    (fr.outcome = .Timeout →
      (send_event_data p tt now le fr).raised =
        some (.operationTimeout "Send operation timed out") ∧
      (send_event_data p tt now le fr).state.condition =
        some (.operationTimeout "Send operation timed out")) ∧
    (fr.outcome ≠ .Ok → fr.outcome ≠ .Timeout →
      (send_event_data p tt now le fr).raised = fr.condition) := by
  have hempty : p.unsent_events.isEmpty = false := by
    simpa [List.isEmpty_iff] using hne
  constructor
  · intro hto
    unfold send_event_data
    rw [hempty]
    simp only [Bool.false_eq_true, if_false]
    rw [hok]
    simp [hto]
  · intro hnotok hnotto
    unfold send_event_data
    rw [hempty]
    simp only [Bool.false_eq_true, if_false]
    rw [hok]
    cases hc : fr.condition <;> simp [hnotok, hnotto, hc]

/-- Witness for C2 (amended): the mapping theorem applied to a concrete
producer and a concrete timeout flush. -/
theorem send_outcome_mapping_witness :
    (send_event_data sampleProducer none 0 none
        { acked := fun _ => false, outcome := .Timeout,
          condition := none }).raised =
      some (.operationTimeout "Send operation timed out") :=
  ((send_outcome_mapping sampleProducer none 0 none
    { acked := fun _ => false, outcome := .Timeout, condition := none }
    (60 * 1000) (by decide) (by rfl)).1 rfl).1

/-! ## Claims about the per-attempt deadline budget -/

/-- C4 counterexample: an attempt whose deadline (5) already lies
before the clock (10) and whose last observed error is a
`ConnectionLostError` fails by raising that connection error itself —
not an operation-timeout error wrapping it — so the claim's "fails
immediately with a timeout error" is false at this input.  The
transport is indeed not invoked again: only the link open happens, no
queue, no wait. -/
theorem send_timeout_raises_last_error :
    (send_event_data sampleProducer (some 5) 10 (some .connectionLost)
        okFlush).raised = some .connectionLost ∧
    EHError.isOperationTimeout .connectionLost = false ∧
    (send_event_data sampleProducer (some 5) 10 (some .connectionLost)
        okFlush).events = [.openLink] := by
  have hset : set_msg_timeout ((openIfNeeded sampleProducer).2).msg_timeout
      (some 5) 10 (some .connectionLost) = .error .connectionLost := by
    have h1 : ¬ ((5 : Rat) = 0) := by norm_num
    have h2 : (5 : Rat) - 10 ≤ 0 := by norm_num
    simp [set_msg_timeout, h1, h2]
  have hempty : sampleProducer.unsent_events.isEmpty = false := rfl
  refine ⟨?_, rfl, ?_⟩ <;>
    (unfold send_event_data
     rw [hempty]
     simp only [Bool.false_eq_true, if_false]
     rw [hset])

/-- `openIfNeeded` never touches the unsent-events list. -/
theorem openIfNeeded_unsent_events (p : ProducerState) :
    (openIfNeeded p).1.unsent_events = p.unsent_events := by
  unfold openIfNeeded
  rcases p.handler <;> rcases p.running <;> rfl

/-- C4 (amended): for every attempt with a set deadline, if the
remaining budget (deadline minus now) is ≤ 0 when `_set_msg_timeout`
runs, the attempt fails immediately by raising the last observed error
if any — else an `OperationTimeoutError` — and the transport is not
invoked again (no `queue_message`, no wait: only the link open event
occurs); otherwise the attempt passes exactly the remaining budget,
deadline minus now (in the link's millisecond unit), to the link as
its message timeout. -/
theorem send_deadline_budget (p : ProducerState) (tt now : Rat)
    (le : Option EHError) (fr : FlushResult)
    (hne : p.unsent_events ≠ []) (htt : tt ≠ 0) :
    (tt - now ≤ 0 →
      (send_event_data p (some tt) now le fr).raised =
        some (le.getD (.operationTimeout "Send operation timed out")) ∧
      (send_event_data p (some tt) now le fr).events = [.openLink]) ∧
    (0 < tt - now →
      ((send_event_data p (some tt) now le fr).state.handler).map
          LinkState.msg_timeout = some ((tt - now) * 1000) ∧
      (send_event_data p (some tt) now le fr).events =
        [.openLink, .queueMessage p.unsent_events, .waitFlush]) := by
  have hempty : p.unsent_events.isEmpty = false := by
    simpa [List.isEmpty_iff] using hne
  constructor
  · intro hle
    have hset : set_msg_timeout ((openIfNeeded p).2).msg_timeout
        (some tt) now le =
        .error (le.getD (.operationTimeout "Send operation timed out")) := by
      simp [set_msg_timeout, htt, hle]
    constructor <;>
      (unfold send_event_data
       rw [hempty]
       simp only [Bool.false_eq_true, if_false]
       rw [hset])
  · intro hpos
    have hset : set_msg_timeout ((openIfNeeded p).2).msg_timeout
        (some tt) now le = .ok ((tt - now) * 1000) := by
      simp [set_msg_timeout, htt, not_le.mpr hpos]
    have hu : (openIfNeeded p).1.unsent_events = p.unsent_events :=
      openIfNeeded_unsent_events p
    constructor <;>
      (unfold send_event_data
       rw [hempty]
       simp only [Bool.false_eq_true, if_false]
       rw [hset]
       cases houtcome : fr.outcome <;> cases hc : fr.condition <;>
         simp [queue_message, wait_async, houtcome, hc, hu])

/-- Witness for C4 (amended): the budget theorem applied to a concrete
producer, deadline 5 and clock 10 (exhausted budget, no last error). -/
theorem send_deadline_budget_witness :
    (send_event_data sampleProducer (some 5) 10 none okFlush).raised =
      some (.operationTimeout "Send operation timed out") :=
  ((send_deadline_budget sampleProducer 5 10 none okFlush
    (by decide) (by norm_num)).1 (by norm_num)).1

/-! ## Claims about pending-message redelivery -/

/-- `openIfNeeded` always leaves the producer running. -/
theorem openIfNeeded_running (p : ProducerState) :
    (openIfNeeded p).1.running = true := by
  unfold openIfNeeded
  rcases hh : p.handler <;> rcases hr : p.running <;> simp [hh, hr]

/-- When the producer already has a link and is running, `openIfNeeded`
reuses the existing link. -/
theorem openIfNeeded_reuse (p : ProducerState) (l : LinkState)
    (hh : p.handler = some l) (hr : p.running = true) :
    openIfNeeded p = (p, l) := by
  unfold openIfNeeded
  rw [hh, hr]

/-- Characterization of one attempt that reaches the flush wait: the
link afterwards has an empty queue, its pending messages are the
unacknowledged ones among everything queued (in queue order), the
producer's unsent list is exactly that pending list, the producer is
running, and the transport events are open, queue, wait. -/
theorem send_event_data_ok_spec (p : ProducerState) (tt : Option Rat)
    (now : Rat) (le : Option EHError) (fr : FlushResult) (mt : Rat)
    (hne : p.unsent_events ≠ [])
    (hok : set_msg_timeout ((openIfNeeded p).2).msg_timeout tt now le =
      .ok mt) :
    (send_event_data p tt now le fr).state.handler =
      some { queued := [],
             pending := (((openIfNeeded p).2.queued ++
               p.unsent_events).filter (fun m => !(fr.acked m))),
             msg_timeout := mt } ∧
    (send_event_data p tt now le fr).state.unsent_events =
      (((openIfNeeded p).2.queued ++ p.unsent_events).filter
        (fun m => !(fr.acked m))) ∧
    (send_event_data p tt now le fr).state.running = true ∧
    (send_event_data p tt now le fr).events =
      [.openLink, .queueMessage p.unsent_events, .waitFlush] := by
  have hempty : p.unsent_events.isEmpty = false := by
    simpa [List.isEmpty_iff] using hne
  have hu : (openIfNeeded p).1.unsent_events = p.unsent_events :=
    openIfNeeded_unsent_events p
  have hr : (openIfNeeded p).1.running = true := openIfNeeded_running p
  refine ⟨?_, ?_, ?_, ?_⟩ <;>
    (unfold send_event_data
     rw [hempty]
     simp only [Bool.false_eq_true, if_false]
     rw [hok]
     cases houtcome : fr.outcome <;> cases hc : fr.condition <;>
       simp [queue_message, wait_async, houtcome, hc, hu, hr,
         List.filter_append])

/-- C5: after every flush wait the producer's unsent-events list equals
exactly the link's pending (unacknowledged) messages; and the next
retry attempt resends exactly those pending messages — its
`queue_message` call carries precisely them, and the queue its flush
acts on consists of them alone (the link's queue was emptied by the
previous flush), so they precede anything queued later and keep their
order: the flush-2 pending list is a filter of the redelivered pending
list itself. -/
theorem send_pending_redelivery (p : ProducerState)
    (t1 t2 : Option Rat) (n1 n2 : Rat) (le1 le2 : Option EHError)
    (fr1 fr2 : FlushResult) (mt1 mt2 : Rat)
    (hne : p.unsent_events ≠ [])
    (h1 : set_msg_timeout ((openIfNeeded p).2).msg_timeout t1 n1 le1 =
      .ok mt1)
    (h2 : set_msg_timeout
        ((openIfNeeded (send_event_data p t1 n1 le1 fr1).state)).2.msg_timeout
        t2 n2 le2 = .ok mt2)
    (hne2 : (send_event_data p t1 n1 le1 fr1).state.unsent_events ≠ []) :
    (∃ l1, (send_event_data p t1 n1 le1 fr1).state.handler = some l1 ∧
      (send_event_data p t1 n1 le1 fr1).state.unsent_events =
        l1.pending) ∧
    (TransportEvent.queueMessage
        (send_event_data p t1 n1 le1 fr1).state.unsent_events ∈
      (send_event_data (send_event_data p t1 n1 le1 fr1).state
        t2 n2 le2 fr2).events) ∧
    (∃ l2, (send_event_data (send_event_data p t1 n1 le1 fr1).state
        t2 n2 le2 fr2).state.handler = some l2 ∧
      l2.pending =
        ((send_event_data p t1 n1 le1 fr1).state.unsent_events).filter
          (fun m => !(fr2.acked m))) := by
  obtain ⟨hh1, hu1, hr1, _⟩ :=
    send_event_data_ok_spec p t1 n1 le1 fr1 mt1 hne h1
  obtain ⟨hh2, hu2, _, hev2⟩ :=
    send_event_data_ok_spec (send_event_data p t1 n1 le1 fr1).state
      t2 n2 le2 fr2 mt2 hne2 h2
  have hreuse := openIfNeeded_reuse (send_event_data p t1 n1 le1 fr1).state
    _ hh1 hr1
  refine ⟨⟨_, hh1, by rw [hu1]⟩, ?_, ?_⟩
  · rw [hev2]
    simp
  · refine ⟨_, hh2, ?_⟩
    rw [hreuse]
    simp

/-- Witness for C5: the redelivery theorem applied to a concrete
producer whose first flush acknowledges nothing. -/
theorem send_pending_redelivery_witness :
    TransportEvent.queueMessage
      (send_event_data sampleProducer none 0 none
        errorFlushNoCondition).state.unsent_events ∈
    (send_event_data
      (send_event_data sampleProducer none 0 none
        errorFlushNoCondition).state none 0 none okFlush).events :=
  (send_pending_redelivery sampleProducer none none 0 0 none none
    errorFlushNoCondition okFlush (60 * 1000) (60 * 1000)
    (by decide) (by rfl) (by rfl) (by decide)).2.1

/-! ## The serialization claim -/

/-- C9: two concurrent `send` calls on the same producer never have
overlapping transport-visible transmission windows.  Checked over every
interleaving of every pair of prefixes of the two calls' lock-relevant
programs (so all partial executions are covered): any schedule the
`asyncio.Lock` semantics admit keeps the second call's transmission
from beginning before the first call's terminal outcome — at most one
in-flight transmission per producer. -/
theorem send_serialization :
    ∀ a ∈ (sendProgram false).inits, ∀ b ∈ (sendProgram true).inits,
    ∀ tr ∈ interleavings a b,
    validFrom none tr = true → overlapFrom [] tr = false := by
  decide

/-- Witness for C9: the serialization theorem applied to the fully
sequential schedule (the first call entirely, then the second). -/
theorem send_serialization_witness :
    (sendProgram false ++ sendProgram true) ∈
      interleavings (sendProgram false) (sendProgram true) ∧
    validFrom none (sendProgram false ++ sendProgram true) = true ∧
    overlapFrom [] (sendProgram false ++ sendProgram true) = false :=
  ⟨by decide, by decide,
    send_serialization (sendProgram false) (by decide)
      (sendProgram true) (by decide)
      (sendProgram false ++ sendProgram true) (by decide) (by decide)⟩
